import Mathlib

/-!
Verification development for the PDFAgentStreamlit repository.

The repository contains a React front end (PDF upload and question/answer
components, embedded below from `src/frontend/src/components/FileUpload.tsx`
and `src/frontend/src/components/QuestionAnswer.tsx`) and a written
product-search workflow (`src/Pasted-Product-Search-Phase-1-...txt`): a
sequence of categorical filters over a SKU catalog and its reference tables,
followed by a relaxation pass.  The Catalog Filter, Relaxation Advisor and
the reference tables exist in the repository only as that written workflow
and the specification built from it, so their Lean definitions here are
modelled from the spec; the front-end handlers are translated from the
TypeScript source.
-/

namespace PDFAgent

/-- Modelled from the spec: a Catalog Entry (SKU) of the Classification
table (`01 Classification.xlsx`, an external data file not in the
repository).  Spec section 3: identifier (unique code), Category,
Base_Type, Moulding_Type, Product_Type, and a production-site code
(`Plant_BoM_Owner`) whose leading two characters identify the country of
origin.  Technical fields not used by any filter stage are omitted. -/
structure CatalogEntry where
  id : String
  category : String
  productType : String
  baseType : String
  mouldingType : String
  plantBoMOwner : String
  deriving DecidableEq

/-- Modelled from the spec: a Nutrition Record (`03 Nutrition.xlsx`, an
external data file not in the repository), keyed by SKU identifier.  The
protein percentage of daily value may be absent and must then be derived
from raw protein grams (spec section 3). -/
structure NutritionRecord where
  sku : String
  proteinDVPerc : Option Nat
  proteinGrams : Nat
  deriving DecidableEq

/-- Modelled from the spec: one row of the Customer Application lookup
table (`02 Customer Application.xlsx`, an external data file not in the
repository): an application name with the set of top-level segments whose
applicability flag is set. -/
structure ApplicationRow where
  name : String
  segments : List String
  deriving DecidableEq

/-- Modelled from the spec: a Requirement Record derived from a customer
document (spec section 3): market-segment application, desired product
types, base types and delivery formats (sets), minimum protein percentage,
and target country set (two-letter production-country codes). -/
structure RequirementRecord where
  application : String
  productTypes : List String
  baseTypes : List String
  deliveryFormats : List String
  minProteinPerc : Nat
  countries : List String
  deriving DecidableEq

/-- Reference daily protein intake used to derive a missing daily-value
percentage; the spec leaves the constant open and suggests the common
50 g/day, which is fixed here as configuration. -/
def referenceDailyProteinGrams : Nat := 50

/-- Protein percentage of a nutrition record: the stored daily-value
percentage when present, otherwise derived from raw protein grams against
the fixed reference daily intake (spec sections 3 and 8). -/
def effectiveProteinPerc (n : NutritionRecord) : Nat :=
  match n.proteinDVPerc with
  | some p => p
  | none => n.proteinGrams * 100 / referenceDailyProteinGrams

/-- Modelled from the spec: stage 1 of the Catalog Filter — filter by
market segment via the Customer Application lookup, keeping entries whose
Category flag for the resolved segment is set (spec section 4.1, step 1).
An application that resolves to no lookup row is an
UnresolvedRequirementField and leaves the axis unconstrained
(spec section 7). -/
def stageSegment (apps : List ApplicationRow) (r : RequirementRecord)
    (l : List CatalogEntry) : List CatalogEntry :=
  match apps.find? (fun a => a.name = r.application) with
  | none => l
  | some a => l.filter (fun e => decide (e.category ∈ a.segments))

/-- Modelled from the spec: stage 2 — keep entries whose Product_Type is
in the requirement's desired product-type set (spec section 4.1, step 2);
an empty desired set means no constraint on this axis (spec section 8). -/
def stageProductType (r : RequirementRecord) (l : List CatalogEntry) :
    List CatalogEntry :=
  match r.productTypes with
  | [] => l
  | _ :: _ => l.filter (fun e => decide (e.productType ∈ r.productTypes))

/-- Modelled from the spec: stage 3 — intersect on Base_Type membership in
the desired set (spec section 4.1, step 3); an empty desired set means no
constraint on this axis (spec section 8). -/
def stageBaseType (r : RequirementRecord) (l : List CatalogEntry) :
    List CatalogEntry :=
  match r.baseTypes with
  | [] => l
  | _ :: _ => l.filter (fun e => decide (e.baseType ∈ r.baseTypes))

/-- Modelled from the spec: stage 4 — intersect on Moulding_Type
membership in the desired delivery-format set (spec section 4.1, step 4);
an empty desired set means no constraint on this axis (spec section 8). -/
def stageDeliveryFormat (r : RequirementRecord) (l : List CatalogEntry) :
    List CatalogEntry :=
  match r.deliveryFormats with
  | [] => l
  | _ :: _ => l.filter (fun e => decide (e.mouldingType ∈ r.deliveryFormats))

/-- Modelled from the spec: stage 5 — join against the Nutrition table by
SKU identifier and keep entries whose protein percentage (stored or
derived) meets the minimum threshold (spec section 4.1, step 5).  A
candidate lacking a nutrition row is MissingNutritionData and is excluded
from protein filtering rather than failing the query (spec section 7). -/
def stageProtein (nut : List NutritionRecord) (r : RequirementRecord)
    (l : List CatalogEntry) : List CatalogEntry :=
  l.filter (fun e =>
    match nut.find? (fun n => n.sku = e.id) with
    | none => true
    | some n => decide (r.minProteinPerc ≤ effectiveProteinPerc n))

/-- Production country of a catalog entry: the first two characters of the
site code field (spec section 4.1, step 6). -/
def countryOf (e : CatalogEntry) : String :=
  e.plantBoMOwner.take 2

/-- Modelled from the spec: stage 6 — keep entries whose derived
production country is in the requirement's target region set
(spec section 4.1, step 6); an empty target set means no constraint. -/
def stageGeography (r : RequirementRecord) (l : List CatalogEntry) :
    List CatalogEntry :=
  match r.countries with
  | [] => l
  | _ :: _ => l.filter (fun e => decide (countryOf e ∈ r.countries))

/-- Modelled from the spec: the combined application of the categorical
stages 2 through 4 (Product Type, Base Type, Delivery Format) to a
candidate set (spec section 4.1). -/
def stages234 (r : RequirementRecord) (l : List CatalogEntry) :
    List CatalogEntry :=
  stageDeliveryFormat r (stageBaseType r (stageProductType r l))

/-- Modelled from the spec: the full six-stage sequential intersection of
the Catalog Filter, each stage operating on the surviving subset of the
previous stage (spec section 4.1). -/
def catalogFilter (apps : List ApplicationRow) (nut : List NutritionRecord)
    (r : RequirementRecord) (cat : List CatalogEntry) : List CatalogEntry :=
  stageGeography r (stageProtein nut r (stages234 r (stageSegment apps r cat)))

/-- Boolean lexicographic comparison on character lists, used as the
stable tie-break ordering on SKU identifiers. -/
def charListLe : List Char → List Char → Bool
  | [], _ => true
  | _ :: _, [] => false
  | a :: as, b :: bs =>
    if a.toNat < b.toNat then true
    else if b.toNat < a.toNat then false
    else charListLe as bs

/-- Ordering of catalog entries by identifier ascending. -/
def entryLe (a b : CatalogEntry) : Prop :=
  charListLe a.id.data b.id.data = true

instance : DecidableRel entryLe :=
  fun a b => inferInstanceAs (Decidable (charListLe a.id.data b.id.data = true))

/-- Stable sort of match results by identifier ascending (spec section 8:
ordered result with stable sort tie-break by identifier). -/
def sortById (l : List CatalogEntry) : List CatalogEntry :=
  List.insertionSort entryLe l

/-- Modelled from the spec: the Catalog Filter's output as an ordered list
of match results, the surviving entries in stable identifier order
(spec sections 4.1 and 8). -/
def catalogFilterSorted (apps : List ApplicationRow)
    (nut : List NutritionRecord) (r : RequirementRecord)
    (cat : List CatalogEntry) : List CatalogEntry :=
  sortById (catalogFilter apps nut r cat)

/-- Modelled from the spec: the outcome of a search pass (spec sections
4.1, 4.2 and 7): an EmptyResultSet signal when the categorical stages
leave nothing, a terminal NoMatchFound, or a non-empty ordered match
list. -/
inductive SearchOutcome where
  | emptyResultSet
  | noMatchFound
  | matches (results : List CatalogEntry)
  deriving DecidableEq

/-- Modelled from the spec: one pass of the Catalog Filter component.  If
stage 2 through 4 combined yield a result set of size zero it signals
EmptyResultSet rather than silently returning nothing (spec section 4.1);
otherwise the protein and geography stages run, and an empty final set is
the terminal NoMatchFound of that pass while a non-empty one is returned
sorted by identifier. -/
def initialPass (apps : List ApplicationRow) (nut : List NutritionRecord)
    (r : RequirementRecord) (cat : List CatalogEntry) : SearchOutcome :=
  if (stages234 r (stageSegment apps r cat)).isEmpty then
    SearchOutcome.emptyResultSet
  else if (catalogFilter apps nut r cat).isEmpty then
    SearchOutcome.noMatchFound
  else
    SearchOutcome.matches (catalogFilterSorted apps nut r cat)

/-- Modelled from the spec: the Relaxation Advisor (spec section 4.2).
The configured widening steps are given as the finite list of relaxed
Requirement Records to try in order (each step records a widened
criterion, already confirmed through the human-in-the-loop gate for
non-numeric widenings); the advisor re-runs the Catalog Filter per step,
returns the first non-empty match set, and reports the terminal
NoMatchFound once the steps are exhausted (spec section 4.2 failure
semantics).  The recursion is structural on the step list, so the advisor
terminates on every input. -/
def relaxationAdvisor (apps : List ApplicationRow)
    (nut : List NutritionRecord) (cat : List CatalogEntry) :
    List RequirementRecord → SearchOutcome
  | [] => SearchOutcome.noMatchFound
  | r :: rest =>
    match initialPass apps nut r cat with
    | SearchOutcome.matches results => SearchOutcome.matches results
    | _ => relaxationAdvisor apps nut cat rest

/-- Modelled from the spec: the whole product search — an initial pass of
the Catalog Filter, handing over to the Relaxation Advisor whenever the
pass does not produce a non-empty match set (spec sections 4.1 and
4.2). -/
def productSearch (apps : List ApplicationRow) (nut : List NutritionRecord)
    (cat : List CatalogEntry) (r : RequirementRecord)
    (steps : List RequirementRecord) : SearchOutcome :=
  match initialPass apps nut r cat with
  | SearchOutcome.matches results => SearchOutcome.matches results
  | _ => relaxationAdvisor apps nut cat steps

/-! Front-end embeddings, translated from the TypeScript source under
`src/frontend/src/components`. -/

/-- A file handed to the dropzone `onDrop` callback: its name and its
browser-reported MIME type (`File.type`). -/
structure DroppedFile where
  name : String
  mimeType : String
  deriving DecidableEq

/-- Local state of the `FileUpload` component: the `loading` and `error`
`useState` hooks (`FileUpload.tsx`). -/
structure UploadState where
  loading : Bool
  error : Option String
  deriving DecidableEq

/-- Response of the upload endpoint as consumed by `onDrop`: a successful
analysis payload, a payload carrying an `error` field (re-thrown by the
handler), or a request failure whose message reaches the `catch` block. -/
inductive UploadResponse where
  | payload (analysis : String)
  | errorField (msg : String)
  | failure (msg : String)
  deriving DecidableEq

/-- Observable outcome of one `onDrop` invocation: the resulting component
state, the file name posted to the upload endpoint (if any request was
sent), and whether the `onAnalysisComplete` callback was invoked. -/
structure UploadOutcome where
  state : UploadState
  posted : Option String
  analysisCompleted : Bool
  deriving DecidableEq

/-- The `onDrop` handler of `FileUpload.tsx`, with the asynchronous
request collapsed into the `respond` argument.  An empty accepted-files
list returns at once; a first file whose MIME type is not
`application/pdf` sets the error message and returns before any request;
otherwise loading is set, the file is posted, and the response either
invokes `onAnalysisComplete` (success), or stores the thrown message in
the error state, with `finally` clearing the loading flag. -/
def onDrop (respond : DroppedFile → UploadResponse) (s : UploadState)
    (acceptedFiles : List DroppedFile) : UploadOutcome :=
  match acceptedFiles with
  | [] => ⟨s, none, false⟩
  | file :: _ =>
    if file.mimeType = "application/pdf" then
      match respond file with
      | UploadResponse.payload _ => ⟨⟨false, none⟩, some file.name, true⟩
      | UploadResponse.errorField m => ⟨⟨false, some m⟩, some file.name, false⟩
      | UploadResponse.failure m => ⟨⟨false, some m⟩, some file.name, false⟩
    else
      ⟨⟨s.loading, some ("Please upload a PDF file")⟩, none, false⟩

/-- Local state of the `QuestionAnswer` component: the `question`,
`answer`, `loading` and `error` `useState` hooks
(`QuestionAnswer.tsx`). -/
structure QAState where
  question : String
  answer : Option String
  loading : Bool
  error : Option String
  deriving DecidableEq

/-- Body of a POST to the ask endpoint: the raw (untrimmed) question and
the PDF context. -/
structure AskRequest where
  question : String
  context : String
  deriving DecidableEq

/-- Response of the ask endpoint as consumed by `handleSubmit`. -/
inductive AskResponse where
  | answerPayload (ans : String)
  | errorField (msg : String)
  | failure (msg : String)
  deriving DecidableEq

/-- Observable outcome of one `handleSubmit` invocation: the resulting
component state and the request sent to the ask endpoint, if any. -/
structure QAOutcome where
  state : QAState
  posted : Option AskRequest
  deriving DecidableEq

/-- The whitespace-stripping `String.prototype.trim` of JavaScript,
modelled over the character list of the string. -/
def jsTrim (s : String) : String :=
  ⟨((s.data.dropWhile Char.isWhitespace).reverse.dropWhile
      Char.isWhitespace).reverse⟩

/-- The `handleSubmit` handler of `QuestionAnswer.tsx`, with the
asynchronous request collapsed into the `respond` argument.  A question
whose trimmed length is below 3 sets the error message and returns before
any request; otherwise loading is set, the question and context are
posted, and the response either stores the answer or stores the thrown
message in the error state, with `finally` clearing the loading flag. -/
def handleSubmit (pdfContext : String) (respond : AskRequest → AskResponse)
    (s : QAState) : QAOutcome :=
  if (jsTrim s.question).length < 3 then
    ⟨⟨s.question, s.answer, s.loading, some ("Please enter a valid question")⟩, none⟩
  else
    match respond ⟨s.question, pdfContext⟩ with
    | AskResponse.answerPayload a =>
      ⟨⟨s.question, some a, false, none⟩, some ⟨s.question, pdfContext⟩⟩
    | AskResponse.errorField m =>
      ⟨⟨s.question, s.answer, false, some m⟩, some ⟨s.question, pdfContext⟩⟩
    | AskResponse.failure m =>
      ⟨⟨s.question, s.answer, false, some m⟩, some ⟨s.question, pdfContext⟩⟩

/-! Concrete reference data for the worked scenarios.  The Classification,
Customer Application and Nutrition tables are external spreadsheet files
that are not in the repository; the tables below are modelled from the
spec's worked example (spec section 8 and the Product Search workflow
write-up): they contain the SKUs the example names, together with
representative entries that each stage must discard, so that every
filtering step of the two scenarios is exercised. -/

/-- Modelled from the spec: the Customer Application lookup row for the
worked example, `Cereal/Protein bars`, flagged for the chocolate and
compound segments. -/
def applicationRows : List ApplicationRow :=
  [⟨"Cereal/Protein bars", ["Chocolate", "Compound"]⟩]

/-- Modelled from the spec: the single SKU surviving the categorical
stages of scenario 1 (`CHM-DR-23SG8-S25`): milk chocolate drops produced
in Belgium. -/
def chm : CatalogEntry :=
  ⟨"CHM-DR-23SG8-S25", "Chocolate", "chocolate", "Milk", "Drops / Chips", "BE01"⟩

/-- Modelled from the spec: the SKU chosen in scenario 2
(`CSM-Q1S-WAP-566`): a milk-chocolate Easymelt produced in Turkey. -/
def csm : CatalogEntry :=
  ⟨"CSM-Q1S-WAP-566", "Chocolate", "chocolate", "Milk", "Easymelt", "TR01"⟩

/-- Modelled from the spec: the remaining Easymelt candidates of
scenario 2 that pass the relaxed protein threshold, produced in the
Europe-proximate countries of the worked example. -/
def emCandidates : List CatalogEntry :=
  [⟨"EMK-001", "Chocolate", "chocolate", "Milk", "Easymelt", "PL01"⟩,
   ⟨"EMK-002", "Chocolate", "choc. max 5% coconut oil", "Milk", "Easymelt", "NL01"⟩,
   ⟨"EMK-003", "Chocolate", "chocolate", "Milk", "Easymelt", "BE02"⟩,
   ⟨"EMK-004", "Chocolate", "chocolate", "Milk", "Easymelt", "TR02"⟩,
   ⟨"EMK-005", "Chocolate", "choc. max 5% coconut oil", "Milk", "Easymelt", "PL02"⟩,
   ⟨"EMK-006", "Chocolate", "chocolate", "Milk", "Easymelt", "NL02"⟩,
   ⟨"EMK-007", "Chocolate", "chocolate", "Milk", "Easymelt", "BE03"⟩]

/-- Modelled from the spec: catalog entries that some stage of the two
scenarios discards — low-protein Easymelts, a dark-base SKU, a
no-added-sugar product type, a cocoa-segment SKU and a block format. -/
def otherEntries : List CatalogEntry :=
  [⟨"EMK-L01", "Chocolate", "chocolate", "Milk", "Easymelt", "TR03"⟩,
   ⟨"EMK-L02", "Chocolate", "chocolate", "Milk", "Easymelt", "PL03"⟩,
   ⟨"DRK-001", "Chocolate", "chocolate", "Dark", "Drops / Chips", "BE04"⟩,
   ⟨"NSU-001", "Chocolate", "choc without added sugar", "Milk", "Drops / Chips", "NL03"⟩,
   ⟨"COC-001", "Cocoa", "chocolate", "Milk", "Easymelt", "TR04"⟩,
   ⟨"BLK-001", "Chocolate", "chocolate", "Milk", "Block", "BE05"⟩]

/-- Modelled from the spec: the Classification catalog of the worked
example. -/
def modelCatalog : List CatalogEntry :=
  chm :: csm :: emCandidates ++ otherEntries

/-- Modelled from the spec: the nutrition row of `CHM-DR-23SG8-S25`; its
Protein_DV_perc column is empty and the percentage is derived from raw
grams, coming out below 5% as the workflow records. -/
def chmNutrition : NutritionRecord :=
  ⟨"CHM-DR-23SG8-S25", none, 2⟩

/-- Modelled from the spec: the Nutrition table of the worked example.
The eight scenario-2 candidates carry at least 18% protein, the remaining
rows stay below the relaxed threshold or do not matter to any stage. -/
def nutritionTable : List NutritionRecord :=
  [chmNutrition,
   ⟨"CSM-Q1S-WAP-566", some 21, 10⟩,
   ⟨"EMK-001", some 18, 9⟩,
   ⟨"EMK-002", some 19, 9⟩,
   ⟨"EMK-003", some 20, 10⟩,
   ⟨"EMK-004", some 22, 11⟩,
   ⟨"EMK-005", some 23, 11⟩,
   ⟨"EMK-006", some 24, 12⟩,
   ⟨"EMK-007", some 25, 12⟩,
   ⟨"EMK-L01", some 10, 5⟩,
   ⟨"EMK-L02", none, 5⟩,
   ⟨"DRK-001", some 20, 10⟩,
   ⟨"NSU-001", some 25, 12⟩,
   ⟨"COC-001", some 30, 15⟩,
   ⟨"BLK-001", some 22, 11⟩]

/-- Modelled from the spec: the scenario-1 Requirement Record — Product
Type set of chocolate and choc with at most 5% coconut oil, Base Type
Milk, Delivery Format Drops/Chips, minimum protein 22%, no geographic
constraint yet. -/
def req1 : RequirementRecord :=
  ⟨"Cereal/Protein bars",
   ["chocolate", "choc. max 5% coconut oil"],
   ["Milk"],
   ["Drops / Chips"],
   22,
   []⟩

/-- Modelled from the spec: the scenario-2 Requirement Record — the same
requirement with the Delivery Format set widened to include Easymelt and
the minimum protein relaxed to 18%. -/
def req2 : RequirementRecord :=
  ⟨"Cereal/Protein bars",
   ["chocolate", "choc. max 5% coconut oil"],
   ["Milk"],
   ["Drops / Chips", "Easymelt"],
   18,
   []⟩

/-- Modelled from the spec: scenario 2 with the geography restricted to
the Europe-proximate countries Turkey, Poland, Netherlands and Belgium
(two-letter production-country codes). -/
def req2geo : RequirementRecord :=
  ⟨"Cereal/Protein bars",
   ["chocolate", "choc. max 5% coconut oil"],
   ["Milk"],
   ["Drops / Chips", "Easymelt"],
   18,
   ["TR", "PL", "NL", "BE"]⟩

/-- A requirement no catalog entry can satisfy, used to exercise the
empty-result paths on concrete inputs. -/
def reqUnmatchable : RequirementRecord :=
  ⟨"Cereal/Protein bars", ["no such product type"], ["Milk"],
   ["Drops / Chips"], 22, []⟩

/-- A requirement with every axis left unconstrained. -/
def reqWild : RequirementRecord :=
  ⟨"Cereal/Protein bars", [], [], [], 0, []⟩

/-- A fixed upload-endpoint responder for exercising `onDrop` on concrete
inputs. -/
def uploadRespondFail : DroppedFile → UploadResponse :=
  fun _ => UploadResponse.failure ("network down")

/-- A fixed ask-endpoint responder for exercising `handleSubmit` on
concrete inputs. -/
def askRespondFail : AskRequest → AskResponse :=
  fun _ => AskResponse.failure ("network down")

/-! Properties of the identifier ordering. -/

theorem charListLe_cons (x y : Char) (xs ys : List Char) :
    charListLe (x :: xs) (y :: ys) = true ↔
      (x.toNat < y.toNat ∨ (x.toNat = y.toNat ∧ charListLe xs ys = true)) := by
  simp only [charListLe]
  split_ifs with h1 h2
  · simp [h1]
  · simp only [Bool.false_eq_true, false_iff]
    rintro (h | ⟨h, _⟩) <;> omega
  · constructor
    · intro h
      exact Or.inr ⟨by omega, h⟩
    · rintro (h | ⟨_, h⟩)
      · omega
      · exact h

theorem charListLe_total (a b : List Char) :
    charListLe a b = true ∨ charListLe b a = true := by
  induction a generalizing b with
  | nil => left; rfl
  | cons x xs ih =>
    cases b with
    | nil => right; rfl
    | cons y ys =>
      rw [charListLe_cons, charListLe_cons]
      rcases Nat.lt_trichotomy x.toNat y.toNat with h | h | h
      · exact Or.inl (Or.inl h)
      · rcases ih ys with h2 | h2
        · exact Or.inl (Or.inr ⟨h, h2⟩)
        · exact Or.inr (Or.inr ⟨h.symm, h2⟩)
      · exact Or.inr (Or.inl h)

theorem charListLe_trans (a b c : List Char)
    (hab : charListLe a b = true) (hbc : charListLe b c = true) :
    charListLe a c = true := by
  induction a generalizing b c with
  | nil => rfl
  | cons x xs ih =>
    cases b with
    | nil => simp [charListLe] at hab
    | cons y ys =>
      cases c with
      | nil => simp [charListLe] at hbc
      | cons z zs =>
        rw [charListLe_cons] at hab hbc ⊢
        rcases hab with h1 | ⟨h1, h1r⟩
        · rcases hbc with h2 | ⟨h2, _⟩
          · exact Or.inl (by omega)
          · exact Or.inl (by omega)
        · rcases hbc with h2 | ⟨h2, h2r⟩
          · exact Or.inl (by omega)
          · exact Or.inr ⟨by omega, ih ys zs h1r h2r⟩

instance : IsTotal CatalogEntry entryLe :=
  ⟨fun a b => charListLe_total a.id.data b.id.data⟩

instance : IsTrans CatalogEntry entryLe :=
  ⟨fun a b c => charListLe_trans a.id.data b.id.data c.id.data⟩

/-! Per-stage helper lemmas: every stage of the Catalog Filter keeps the
candidate set a subset of its input, and never grows it. -/

theorem stageSegment_length_le (apps : List ApplicationRow)
    (r : RequirementRecord) (l : List CatalogEntry) :
    (stageSegment apps r l).length ≤ l.length := by
  unfold stageSegment
  cases apps.find? (fun a => a.name = r.application) with
  | none => exact Nat.le_refl _
  | some a => exact List.length_filter_le _ _

theorem stageProductType_length_le (r : RequirementRecord)
    (l : List CatalogEntry) : (stageProductType r l).length ≤ l.length := by
  unfold stageProductType
  cases r.productTypes with
  | nil => exact Nat.le_refl _
  | cons x xs => exact List.length_filter_le _ _

theorem stageBaseType_length_le (r : RequirementRecord)
    (l : List CatalogEntry) : (stageBaseType r l).length ≤ l.length := by
  unfold stageBaseType
  cases r.baseTypes with
  | nil => exact Nat.le_refl _
  | cons x xs => exact List.length_filter_le _ _

theorem stageDeliveryFormat_length_le (r : RequirementRecord)
    (l : List CatalogEntry) :
    (stageDeliveryFormat r l).length ≤ l.length := by
  unfold stageDeliveryFormat
  cases r.deliveryFormats with
  | nil => exact Nat.le_refl _
  | cons x xs => exact List.length_filter_le _ _

theorem stageProtein_length_le (nut : List NutritionRecord)
    (r : RequirementRecord) (l : List CatalogEntry) :
    (stageProtein nut r l).length ≤ l.length :=
  List.length_filter_le _ _

theorem stageGeography_length_le (r : RequirementRecord)
    (l : List CatalogEntry) : (stageGeography r l).length ≤ l.length := by
  unfold stageGeography
  cases r.countries with
  | nil => exact Nat.le_refl _
  | cons x xs => exact List.length_filter_le _ _

theorem stageSegment_subset (apps : List ApplicationRow)
    (r : RequirementRecord) (l : List CatalogEntry) (e : CatalogEntry)
    (h : e ∈ stageSegment apps r l) : e ∈ l := by
  unfold stageSegment at h
  revert h
  cases apps.find? (fun a => a.name = r.application) with
  | none => exact id
  | some a => exact fun h => (List.mem_filter.mp h).1

theorem stageProductType_subset (r : RequirementRecord)
    (l : List CatalogEntry) (e : CatalogEntry)
    (h : e ∈ stageProductType r l) : e ∈ l := by
  unfold stageProductType at h
  revert h
  cases r.productTypes with
  | nil => exact id
  | cons x xs => exact fun h => (List.mem_filter.mp h).1

theorem stageBaseType_subset (r : RequirementRecord)
    (l : List CatalogEntry) (e : CatalogEntry)
    (h : e ∈ stageBaseType r l) : e ∈ l := by
  unfold stageBaseType at h
  revert h
  cases r.baseTypes with
  | nil => exact id
  | cons x xs => exact fun h => (List.mem_filter.mp h).1

theorem stageDeliveryFormat_subset (r : RequirementRecord)
    (l : List CatalogEntry) (e : CatalogEntry)
    (h : e ∈ stageDeliveryFormat r l) : e ∈ l := by
  unfold stageDeliveryFormat at h
  revert h
  cases r.deliveryFormats with
  | nil => exact id
  | cons x xs => exact fun h => (List.mem_filter.mp h).1

theorem stageProtein_subset (nut : List NutritionRecord)
    (r : RequirementRecord) (l : List CatalogEntry) (e : CatalogEntry)
    (h : e ∈ stageProtein nut r l) : e ∈ l :=
  (List.mem_filter.mp h).1

theorem stageGeography_subset (r : RequirementRecord)
    (l : List CatalogEntry) (e : CatalogEntry)
    (h : e ∈ stageGeography r l) : e ∈ l := by
  unfold stageGeography at h
  revert h
  cases r.countries with
  | nil => exact id
  | cons x xs => exact fun h => (List.mem_filter.mp h).1

theorem initialPass_ne_matches_of_empty (apps : List ApplicationRow)
    (nut : List NutritionRecord) (r : RequirementRecord)
    (cat : List CatalogEntry) (h : catalogFilter apps nut r cat = [])
    (res : List CatalogEntry) :
    initialPass apps nut r cat ≠ SearchOutcome.matches res := by
  unfold initialPass
  by_cases h4 : (stages234 r (stageSegment apps r cat)).isEmpty
  · simp [h4]
  · simp [h4, h]

/-! The claims. -/

/-- C1: for every Requirement Record and catalog, each stage of the
Catalog Filter's sequential intersection produces a candidate set whose
size is less than or equal to the size of the candidate set entering that
stage, monotonically non-increasing across stages 1 through 6. -/
theorem catalogFilter_stage_sizes_monotone (apps : List ApplicationRow)
    (nut : List NutritionRecord) (r : RequirementRecord)
    (cat : List CatalogEntry) :
    (stageSegment apps r cat).length ≤ cat.length ∧
    (stageProductType r (stageSegment apps r cat)).length ≤
      (stageSegment apps r cat).length ∧
    (stageBaseType r (stageProductType r (stageSegment apps r cat))).length ≤
      (stageProductType r (stageSegment apps r cat)).length ∧
    (stageDeliveryFormat r (stageBaseType r (stageProductType r
        (stageSegment apps r cat)))).length ≤
      (stageBaseType r (stageProductType r (stageSegment apps r cat))).length ∧
    (stageProtein nut r (stageDeliveryFormat r (stageBaseType r
        (stageProductType r (stageSegment apps r cat))))).length ≤
      (stageDeliveryFormat r (stageBaseType r (stageProductType r
        (stageSegment apps r cat)))).length ∧
    (stageGeography r (stageProtein nut r (stageDeliveryFormat r
        (stageBaseType r (stageProductType r (stageSegment apps r cat)))))).length ≤
      (stageProtein nut r (stageDeliveryFormat r (stageBaseType r
        (stageProductType r (stageSegment apps r cat))))).length :=
  ⟨stageSegment_length_le apps r cat,
   stageProductType_length_le r _,
   stageBaseType_length_le r _,
   stageDeliveryFormat_length_le r _,
   stageProtein_length_le nut r _,
   stageGeography_length_le r _⟩

/-- C2: every match result returned by the Catalog Filter is an entry of
the input catalog; the filter never produces an entry that was not in the
input. -/
theorem catalogFilter_output_subset (apps : List ApplicationRow)
    (nut : List NutritionRecord) (r : RequirementRecord)
    (cat : List CatalogEntry) (e : CatalogEntry)
    (h : e ∈ catalogFilterSorted apps nut r cat) : e ∈ cat := by
  rw [catalogFilterSorted, sortById, List.mem_insertionSort] at h
  unfold catalogFilter stages234 at h
  exact stageSegment_subset apps r cat e
    (stageProductType_subset r _ e
      (stageBaseType_subset r _ e
        (stageDeliveryFormat_subset r _ e
          (stageProtein_subset nut r _ e
            (stageGeography_subset r _ e h)))))

theorem catalogFilter_output_subset_witness :
    chm ∈ catalogFilterSorted applicationRows nutritionTable reqWild [chm] ∧
    chm ∈ [chm] :=
  ⟨by decide,
   catalogFilter_output_subset applicationRows nutritionTable reqWild [chm]
     chm (by decide)⟩

/-- C3: running the Catalog Filter twice with identical inputs yields an
identical ordered list of match results, the output being sorted by
identifier ascending via the stable insertion sort `sortById`. -/
theorem catalogFilter_run_twice_identical (apps : List ApplicationRow)
    (nut : List NutritionRecord) (r : RequirementRecord)
    (cat : List CatalogEntry) :
    catalogFilterSorted apps nut r cat = catalogFilterSorted apps nut r cat ∧
    List.Sorted entryLe (catalogFilterSorted apps nut r cat) :=
  ⟨rfl, List.sorted_insertionSort entryLe (catalogFilter apps nut r cat)⟩

/-- C4: whenever stages 2 through 4 applied to the segment-filtered
catalog yield a result set of size zero, the pass signals the
EmptyResultSet condition instead of silently returning nothing, and the
product search hands over to the Relaxation Advisor. -/
theorem emptyResultSet_signalled (apps : List ApplicationRow)
    (nut : List NutritionRecord) (r : RequirementRecord)
    (cat : List CatalogEntry) (steps : List RequirementRecord)
    (h : stages234 r (stageSegment apps r cat) = []) :
    initialPass apps nut r cat = SearchOutcome.emptyResultSet ∧
    productSearch apps nut cat r steps = relaxationAdvisor apps nut cat steps := by
  have h1 : initialPass apps nut r cat = SearchOutcome.emptyResultSet := by
    unfold initialPass
    simp [h]
  refine ⟨h1, ?_⟩
  unfold productSearch
  rw [h1]

theorem emptyResultSet_signalled_witness :
    stages234 reqUnmatchable (stageSegment applicationRows reqUnmatchable [chm]) = [] ∧
    initialPass applicationRows nutritionTable reqUnmatchable [chm] =
      SearchOutcome.emptyResultSet :=
  ⟨by decide,
   (emptyResultSet_signalled applicationRows nutritionTable reqUnmatchable
     [chm] [] (by decide)).1⟩

/-- C5: the Relaxation Advisor terminates on every input — it is a
structural recursion over the finite list of configured widening steps —
and when every widening step still leaves the Catalog Filter with zero
matches, it reports the terminal NoMatchFound outcome. -/
theorem relaxationAdvisor_exhaustion_noMatchFound (apps : List ApplicationRow)
    (nut : List NutritionRecord) (cat : List CatalogEntry)
    (steps : List RequirementRecord)
    (h : ∀ r ∈ steps, catalogFilter apps nut r cat = []) :
    relaxationAdvisor apps nut cat steps = SearchOutcome.noMatchFound := by
  induction steps with
  | nil => rfl
  | cons r rest ih =>
    have hr := h r (List.mem_cons_self r rest)
    have hrest := ih (fun q hq => h q (List.mem_cons_of_mem _ hq))
    unfold relaxationAdvisor
    rcases ho : initialPass apps nut r cat with _ | _ | res
    · exact hrest
    · exact hrest
    · exact absurd ho (initialPass_ne_matches_of_empty apps nut r cat hr res)

theorem relaxationAdvisor_exhaustion_witness :
    (∀ r ∈ [reqUnmatchable],
      catalogFilter applicationRows nutritionTable r [chm] = []) ∧
    relaxationAdvisor applicationRows nutritionTable [chm] [reqUnmatchable] =
      SearchOutcome.noMatchFound :=
  ⟨by decide,
   relaxationAdvisor_exhaustion_noMatchFound applicationRows nutritionTable
     [chm] [reqUnmatchable] (by decide)⟩

/-- C6: on the worked-example catalog, the scenario-1 requirement (Product
Type chocolate or choc with at most 5% coconut oil, Base Type Milk,
Delivery Format Drops/Chips, minimum protein 22%) leaves exactly the SKU
CHM-DR-23SG8-S25 after the categorical stages; that SKU's derived protein
percentage is below 5%, so it fails the protein filter and the initial
pass yields NoMatchFound. -/
theorem scenario1_single_sku_noMatchFound :
    stages234 req1 (stageSegment applicationRows req1 modelCatalog) = [chm] ∧
    chm.id = "CHM-DR-23SG8-S25" ∧
    nutritionTable.find? (fun n => n.sku = chm.id) = some chmNutrition ∧
    effectiveProteinPerc chmNutrition < 5 ∧
    initialPass applicationRows nutritionTable req1 modelCatalog =
      SearchOutcome.noMatchFound :=
  ⟨by decide, rfl, by decide, by decide, by decide⟩

/-- C7: with the Delivery Format set widened to include Easymelt and the
minimum protein relaxed to 18%, the protein filter leaves exactly 8
candidates on the worked-example catalog, and restricting geography to
Turkey, Poland, Netherlands and Belgium keeps CSM-Q1S-WAP-566 in a
non-empty result. -/
theorem scenario2_eight_candidates_csm_selected :
    (stageProtein nutritionTable req2geo (stages234 req2geo
      (stageSegment applicationRows req2geo modelCatalog))).length = 8 ∧
    csm.id = "CSM-Q1S-WAP-566" ∧
    csm ∈ stageGeography req2geo (stageProtein nutritionTable req2geo
      (stages234 req2geo (stageSegment applicationRows req2geo modelCatalog))) ∧
    stageGeography req2geo (stageProtein nutritionTable req2geo
      (stages234 req2geo (stageSegment applicationRows req2geo modelCatalog))) ≠ [] :=
  ⟨by decide, rfl, by decide, by decide⟩

/-- C8: a requirement whose desired set on a categorical axis (product
type, base type or delivery format) is empty leaves that axis
unconstrained — the corresponding stage passes every entry through
unchanged, so it can never empty the result set on account of that
axis. -/
theorem empty_axis_unconstrained (r : RequirementRecord)
    (l : List CatalogEntry) :
    (r.productTypes = [] → stageProductType r l = l) ∧
    (r.baseTypes = [] → stageBaseType r l = l) ∧
    (r.deliveryFormats = [] → stageDeliveryFormat r l = l) := by
  refine ⟨fun h => ?_, fun h => ?_, fun h => ?_⟩
  · unfold stageProductType
    rw [h]
  · unfold stageBaseType
    rw [h]
  · unfold stageDeliveryFormat
    rw [h]

theorem empty_axis_unconstrained_witness :
    stageProductType reqWild [chm] = [chm] ∧
    stageBaseType reqWild [chm] = [chm] ∧
    stageDeliveryFormat reqWild [chm] = [chm] :=
  ⟨(empty_axis_unconstrained reqWild [chm]).1 rfl,
   (empty_axis_unconstrained reqWild [chm]).2.1 rfl,
   (empty_axis_unconstrained reqWild [chm]).2.2 rfl⟩

/-- C9: a dropped file whose MIME type is not application/pdf makes
`onDrop` set the error message to "Please upload a PDF file" and return
before posting anything, leaving the loading flag false and never
invoking `onAnalysisComplete`; an empty accepted-files list produces no
request and no state change. -/
theorem onDrop_rejects_non_pdf_and_empty
    (respond : DroppedFile → UploadResponse) (s : UploadState)
    (file : DroppedFile) (rest : List DroppedFile)
    (hmime : file.mimeType ≠ "application/pdf") (hload : s.loading = false) :
    onDrop respond s (file :: rest) =
      ⟨⟨false, some ("Please upload a PDF file")⟩, none, false⟩ ∧
    onDrop respond s [] = ⟨s, none, false⟩ := by
  constructor
  · simp only [onDrop]
    rw [if_neg hmime, hload]
  · rfl

theorem onDrop_rejects_witness :
    ("text/plain" : String) ≠ "application/pdf" ∧
    onDrop uploadRespondFail ⟨false, none⟩ [⟨"doc.txt", "text/plain"⟩] =
      ⟨⟨false, some ("Please upload a PDF file")⟩, none, false⟩ :=
  ⟨by decide,
   (onDrop_rejects_non_pdf_and_empty uploadRespondFail ⟨false, none⟩
     ⟨"doc.txt", "text/plain"⟩ [] (by decide) rfl).1⟩

/-- C10: a submitted question whose trimmed length is below 3 characters
makes `handleSubmit` set the error message to "Please enter a valid
question" and return without posting to the ask endpoint, leaving the
previously displayed answer and the loading flag unchanged. -/
theorem handleSubmit_rejects_short_question (pdfContext : String)
    (respond : AskRequest → AskResponse) (s : QAState)
    (h : (jsTrim s.question).length < 3) :
    handleSubmit pdfContext respond s =
      ⟨⟨s.question, s.answer, s.loading,
        some ("Please enter a valid question")⟩, none⟩ := by
  unfold handleSubmit
  rw [if_pos h]

theorem handleSubmit_rejects_witness :
    (jsTrim ("hi")).length < 3 ∧
    handleSubmit ("some pdf context") askRespondFail
        ⟨"hi", some ("earlier answer"), false, none⟩ =
      ⟨⟨"hi", some ("earlier answer"), false,
        some ("Please enter a valid question")⟩, none⟩ :=
  ⟨by decide,
   handleSubmit_rejects_short_question ("some pdf context") askRespondFail
     ⟨"hi", some ("earlier answer"), false, none⟩ (by decide)⟩

end PDFAgent
